import Mathlib

/-!
Verification development for the yippi e621 client library.

The definitions below are a shallow embedding of the Python source:
`yippi/Classes.py`, `yippi/AbstractYippi.py`, `yippi/YippiSync.py`,
`yippi/Enums.py`, `yippi/Exceptions.py`.  Python's `None` is modelled by
`Json.null` (JSON `null` and a missing dictionary key both read back as
`None` through `dict.get`, so the two are intentionally conflated, exactly
as in the source).  Fallible Python code (raised exceptions) is modelled
with `Except PyErr`.
-/

/-- JSON values as delivered by the remote service, also standing in for
arbitrary Python values held in an entity's fields. -/
inductive Json where
  | null
  | bool (b : Bool)
  | num (n : Int)
  | str (s : String)
  | arr (elems : List Json)
  | obj (fields : List (String × Json))

mutual

def Json.decEq : (a b : Json) → Decidable (a = b)
  | .null, .null => .isTrue rfl
  | .bool a, .bool b =>
    if h : a = b then .isTrue (by rw [h]) else .isFalse (fun he => h (Json.bool.inj he))
  | .num a, .num b =>
    if h : a = b then .isTrue (by rw [h]) else .isFalse (fun he => h (Json.num.inj he))
  | .str a, .str b =>
    if h : a = b then .isTrue (by rw [h]) else .isFalse (fun he => h (Json.str.inj he))
  | .arr xs, .arr ys =>
    match Json.decEqList xs ys with
    | .isTrue h => .isTrue (by rw [h])
    | .isFalse h => .isFalse (fun he => h (Json.arr.inj he))
  | .obj xs, .obj ys =>
    match Json.decEqObj xs ys with
    | .isTrue h => .isTrue (by rw [h])
    | .isFalse h => .isFalse (fun he => h (Json.obj.inj he))
  | .null, .bool _ => .isFalse nofun
  | .null, .num _ => .isFalse nofun
  | .null, .str _ => .isFalse nofun
  | .null, .arr _ => .isFalse nofun
  | .null, .obj _ => .isFalse nofun
  | .bool _, .null => .isFalse nofun
  | .bool _, .num _ => .isFalse nofun
  | .bool _, .str _ => .isFalse nofun
  | .bool _, .arr _ => .isFalse nofun
  | .bool _, .obj _ => .isFalse nofun
  | .num _, .null => .isFalse nofun
  | .num _, .bool _ => .isFalse nofun
  | .num _, .str _ => .isFalse nofun
  | .num _, .arr _ => .isFalse nofun
  | .num _, .obj _ => .isFalse nofun
  | .str _, .null => .isFalse nofun
  | .str _, .bool _ => .isFalse nofun
  | .str _, .num _ => .isFalse nofun
  | .str _, .arr _ => .isFalse nofun
  | .str _, .obj _ => .isFalse nofun
  | .arr _, .null => .isFalse nofun
  | .arr _, .bool _ => .isFalse nofun
  | .arr _, .num _ => .isFalse nofun
  | .arr _, .str _ => .isFalse nofun
  | .arr _, .obj _ => .isFalse nofun
  | .obj _, .null => .isFalse nofun
  | .obj _, .bool _ => .isFalse nofun
  | .obj _, .num _ => .isFalse nofun
  | .obj _, .str _ => .isFalse nofun
  | .obj _, .arr _ => .isFalse nofun

def Json.decEqList : (xs ys : List Json) → Decidable (xs = ys)
  | [], [] => .isTrue rfl
  | x :: xs, y :: ys =>
    match Json.decEq x y with
    | .isFalse h => .isFalse (fun he => h (List.cons.inj he).1)
    | .isTrue h1 =>
      match Json.decEqList xs ys with
      | .isTrue h2 => .isTrue (by rw [h1, h2])
      | .isFalse h2 => .isFalse (fun he => h2 (List.cons.inj he).2)
  | [], _ :: _ => .isFalse nofun
  | _ :: _, [] => .isFalse nofun

def Json.decEqObj : (xs ys : List (String × Json)) → Decidable (xs = ys)
  | [], [] => .isTrue rfl
  | (k1, v1) :: xs, (k2, v2) :: ys =>
    if hk : k1 = k2 then
      match Json.decEq v1 v2 with
      | .isFalse h => .isFalse (fun he => h (Prod.mk.inj (List.cons.inj he).1).2)
      | .isTrue hv =>
        match Json.decEqObj xs ys with
        | .isTrue ht => .isTrue (by rw [hk, hv, ht])
        | .isFalse ht => .isFalse (fun he => ht (List.cons.inj he).2)
    else .isFalse (fun he => hk (Prod.mk.inj (List.cons.inj he).1).1)
  | [], _ :: _ => .isFalse nofun
  | _ :: _, [] => .isFalse nofun

end

instance : DecidableEq Json := Json.decEq

/-- A decoded JSON object (Python `dict`), keyed by strings.  Pool, post,
note and flag payloads all arrive in this shape. -/
abbrev JsonObj := List (String × Json)

/-- The Python exceptions the embedded code can raise.
`userError` and `apiError` are the library's own `UserError` / `APIError`
(`yippi/Exceptions.py`); `UserError` carries an optional attached JSON
body (its `json` keyword).  The rest are builtin Python exceptions. -/
inductive PyErr where
  | userError (msg : Json) (json : Option JsonObj)
  | apiError (reason : String)
  | valueError
  | keyError
  | attributeError
  | indexError
  | jsonDecodeError
deriving DecidableEq

/-- `dict.get k` on a decoded JSON object: the value at the first binding
of `k`, or `Json.null` (Python `None`) when the key is absent. -/
def jget (o : JsonObj) (k : String) : Json :=
  match o.find? (fun kv => kv.1 == k) with
  | some kv => kv.2
  | none => .null

/-- Python truthiness of a JSON value. -/
def jsonTruthy : Json → Bool
  | .null => false
  | .bool b => b
  | .num n => n != 0
  | .str s => s != ""
  | .arr l => !l.isEmpty
  | .obj l => !l.isEmpty

/-- Python's `x or y`. -/
def pyOr (a b : Json) : Json :=
  if jsonTruthy a then a else b

/-- `Post._diff_list` (Classes.py:104-119): the elements of `this` that do
not occur in `that`, in `this`'s order.  Mirrors the loop
`for e in this: if e not in that: result.append(e)`. -/
def diffList {α} [DecidableEq α] : List α → List α → List α
  | [], _ => []
  | e :: rest, that =>
    if e ∈ that then diffList rest that else e :: diffList rest that

theorem diffList_eq_filter {α} [DecidableEq α] (A B : List α) :
    diffList A B = A.filter (fun a => a ∉ B) := by
  induction A with
  | nil => rfl
  | cons e rest ih =>
    by_cases h : e ∈ B <;> simp [diffList, h, ih, List.filter_cons]

theorem diffList_sublist {α} [DecidableEq α] (A B : List α) :
    (diffList A B).Sublist A := by
  rw [diffList_eq_filter]; exact List.filter_sublist A

theorem diffList_count {α} [DecidableEq α] (A B : List α) (e : α) :
    (diffList A B).count e = if e ∈ B then 0 else A.count e := by
  induction A with
  | nil => simp [diffList]
  | cons a rest ih =>
    by_cases ha : a ∈ B
    · rw [show diffList (a :: rest) B = diffList rest B by simp [diffList, ha], ih]
      by_cases he : e ∈ B
      · simp [he]
      · have hae : a ≠ e := fun h => he (h ▸ ha)
        simp [he, List.count_cons, hae]
    · rw [show diffList (a :: rest) B = a :: diffList rest B by simp [diffList, ha]]
      by_cases he : e ∈ B
      · have hae : a ≠ e := fun h => ha (h ▸ he)
        simp [List.count_cons, hae, ih, he]
      · simp [List.count_cons, ih, he]

/-- C3 counterexample: the claim says an element occurring twice in `A` and
once in `B` occurs once in `diffList A B` (multiset difference).  The code
drops every occurrence: `diffList ["x","x"] ["x"] = []`, not `["x"]`. -/
theorem diff_list_not_multiset_difference :
    diffList ["x", "x"] ["x"] = ([] : List String) ∧
    diffList ["x", "x"] ["x"] ≠ (["x"] : List String) := by
  constructor
  · rfl
  · intro h; cases h

/-- C3 (amended): `diffList A B` returns the elements of `A` that do not
occur in `B` at all, preserving `A`'s order (it is a sublist of `A`) and
the multiplicity in `A` of surviving elements; an element of `B` occurs
zero times in the result, however often it occurs in `A`. -/
theorem diff_list_filters_all_occurrences (A B : List String) :
    diffList A B = A.filter (fun a => a ∉ B) ∧
    (diffList A B).Sublist A ∧
    (∀ e : String, (diffList A B).count e = if e ∈ B then 0 else A.count e) :=
  ⟨diffList_eq_filter A B, diffList_sublist A B, diffList_count A B⟩

/-- Substring test on character lists, used to model Python's `in` on
strings. -/
def containsSub (sub : List Char) : List Char → Bool
  | [] => sub.isPrefixOf ([] : List Char)
  | c :: rest => sub.isPrefixOf (c :: rest) || containsSub sub rest

/-- Python's `sub in s` for strings. -/
def strContains (s sub : String) : Bool :=
  containsSub sub.data s.data

/-- Python truthiness of an optional string (`None` and `""` are falsy). -/
def pyTruthyOptStr : Option String → Bool
  | none => false
  | some s => s != ""

/-- An HTTP response as observed by `YippiClient._verify_response`
(YippiSync.py): status code, the parsed JSON body (`r.json()`; `none`
models a body that is not JSON, on which `r.json()` raises), the
transport reason phrase (`r.reason`), the `Content-Type` header and the
raw body text (`r.text`). -/
structure HttpResponse where
  status : Nat
  jsonBody : Option JsonObj
  reason : String
  contentType : Option String
  text : String

/-- The tail of `YippiClient._verify_response` (YippiSync.py:49-56): a
response that is not 204 and whose content type is missing or not JSON is
a `UserError`, either `"Not found."` or a generic message. -/
def contentCheck (r : HttpResponse) : Except PyErr Unit :=
  if r.status != 204 &&
      (!pyTruthyOptStr r.contentType ||
        !strContains (r.contentType.getD "") "application/json") then
    if strContains r.text "Not found." then
      .error (.userError (.str "Not found.") none)
    else
      .error (.userError (.str "Invalid input or server error.") none)
  else
    .ok ()

/-- `YippiClient._verify_response` (YippiSync.py:40-56).  Status in
[300,500) parses the body as JSON and, when the status is >= 400, raises
`UserError(res.get("message") or res.get("reason"), json=res)`; status
>= 500 raises `APIError(r.reason)`; otherwise fall through to the
content-type check. -/
def verifyResponse (r : HttpResponse) : Except PyErr Unit :=
  if 300 ≤ r.status ∧ r.status < 500 then
    match r.jsonBody with
    | none => .error .jsonDecodeError
    | some res =>
      if 400 ≤ r.status then
        .error (.userError (pyOr (jget res "message") (jget res "reason")) (some res))
      else
        contentCheck r
  else if 500 ≤ r.status then
    .error (.apiError r.reason)
  else
    contentCheck r

/-- The verification/return tail of `YippiClient._call_api`
(YippiSync.py:24-38): verify the response, then return the parsed JSON
body, or nothing when the status is the 204 no-content sentinel. -/
def callApi (r : HttpResponse) : Except PyErr (Option JsonObj) :=
  match verifyResponse r with
  | .error e => .error e
  | .ok _ =>
    if r.status == 204 then
      .ok none
    else
      match r.jsonBody with
      | some j => .ok (some j)
      | none => .error .jsonDecodeError

/-- C2: a 404 response with JSON body `{"reason": "not found"}` raises
`UserError` carrying that reason with the raw body attached; any status
>= 500 raises `APIError` carrying the transport reason phrase; a 204
response succeeds with no parsed body. -/
theorem verify_response_error_classification (r : HttpResponse) :
    (r.status = 404 → r.jsonBody = some [("reason", .str "not found")] →
      callApi r = .error (.userError (.str "not found")
        (some [("reason", .str "not found")]))) ∧
    (500 ≤ r.status → callApi r = .error (.apiError r.reason)) ∧
    (r.status = 204 → callApi r = .ok none) := by
  refine ⟨fun h4 hb => ?_, fun h5 => ?_, fun h2 => ?_⟩
  · simp [callApi, verifyResponse, h4, hb, jget, pyOr, jsonTruthy]
  · have hlt : ¬(300 ≤ r.status ∧ r.status < 500) := fun hc => absurd h5 (by omega)
    simp [callApi, verifyResponse, hlt, h5]
  · simp [callApi, verifyResponse, contentCheck, h2]

/-- Witness for C2 at concrete responses. -/
theorem verify_response_error_classification_witness :
    callApi ⟨404, some [("reason", .str "not found")], "Not Found",
        some "application/json", ""⟩ =
      .error (.userError (.str "not found")
        (some [("reason", .str "not found")])) ∧
    callApi ⟨502, none, "Bad Gateway", none, ""⟩ =
      .error (.apiError "Bad Gateway") ∧
    callApi ⟨204, none, "No Content", none, ""⟩ = .ok none := by
  refine ⟨?_, ?_, ?_⟩
  · exact (verify_response_error_classification _).1 rfl rfl
  · exact (verify_response_error_classification _).2.1 (by decide)
  · exact (verify_response_error_classification _).2.2 rfl

/-- `str(b).lower()` for a Python boolean. -/
def pyBoolStr (b : Bool) : String :=
  if b then "true" else "false"

/-- An optional string parameter as the Python value handed to the query
dict (`None` ↦ `Json.null`). -/
def optStrVal : Option String → Json
  | none => .null
  | some s => .str s

/-- An optional integer parameter as the Python value handed to the query
dict. -/
def optIntVal : Option Int → Json
  | none => .null
  | some n => .num n

/-- Python's `x if x else None` on a string. -/
def strOrNone (s : String) : Json :=
  if s = "" then .null else .str s

/-- The key rewrite of `AbstractYippi._convert_search_query`
(AbstractYippi.py:104-107): `if k[-1] == "_": k = k[0:-1]`. -/
def stripTrailingUnderscore (k : String) : String :=
  if k.back = '_' then k.dropRight 1 else k

/-- `AbstractYippi._convert_search_query` (AbstractYippi.py:89-108) over an
association list of keyword arguments.  Every entry is kept (`None` values
included) and wrapped as `search[<key>]`; `none` models the `IndexError`
Python would raise indexing `k[-1]` on an empty key (keyword-argument
names are never empty at the call sites). -/
def convertSearchQuery {α} : List (String × α) → Option (List (String × α))
  | [] => some []
  | kv :: rest =>
    if kv.1 = "" then none
    else
      match convertSearchQuery rest with
      | none => none
      | some q =>
        some (("search[" ++ stripTrailingUnderscore kv.1 ++ "]", kv.2) :: q)

/-- `AbstractYippi._get_notes` (AbstractYippi.py:194-243): the queries dict
handed to `_call_api` for a notes search.  `post_tags_match` is taken
already space-joined (the source joins a list argument first). -/
def getNotes (body_matches : Option String) (post_id : Option Int)
    (post_tags_match creator_name creator_id : Option String)
    (is_active : Option Bool) (limit : Option Int) :
    Option (List (String × Json)) :=
  let is_active_str : String :=
    match is_active with
    | some b => pyBoolStr b
    | none => ""
  match convertSearchQuery
      [("body_matches", optStrVal body_matches),
       ("post_id", optIntVal post_id),
       ("post_tags_match", optStrVal post_tags_match),
       ("creator_name", optStrVal creator_name),
       ("creator_id", optStrVal creator_id),
       ("is_active", strOrNone is_active_str)] with
  | some q => some (q ++ [("limit", optIntVal limit)])
  | none => none

/-- `AbstractYippi.VALID_CATEGORY` (AbstractYippi.py:46). -/
def validCategory : List String := ["series", "collection"]

/-- `AbstractYippi.VALID_ORDER` (AbstractYippi.py:47). -/
def validOrder : List String := ["name", "created_at", "updated_at", "post_count"]

/-- `AbstractYippi._get_pools` (AbstractYippi.py:245-318): validates
`category` and `order` (raising `UserError` before any network call) and
builds the queries dict handed to `_call_api`.  `id_` is taken already
comma-joined (the source joins a list argument first).  An `ok` result is
the network call that gets issued; an `error` result means no call was
made.  The source's second error message reuses the word "category" for
`order`; the embedded messages keep only the leading text of the
f-string. -/
def getPools (name_matches : Option String) (id_ : Json)
    (description_matches creator_name : Option String)
    (creator_id : Option Int) (is_active is_deleted : Option Bool)
    (category order : Option String) (limit : Option Int) :
    Except PyErr (List (String × Json)) :=
  let is_active_str : String :=
    match is_active with
    | some b => pyBoolStr b
    | none => ""
  let is_deleted_str : String :=
    match is_deleted with
    | some b => pyBoolStr b
    | none => ""
  if pyTruthyOptStr category && !(validCategory.contains (category.getD "")) then
    .error (.userError (.str ("Invalid category " ++ category.getD "")) none)
  else if pyTruthyOptStr order && !(validOrder.contains (order.getD "")) then
    .error (.userError (.str ("Invalid category " ++ order.getD "")) none)
  else
    match convertSearchQuery
        [("name_matches", optStrVal name_matches),
         ("id_", id_),
         ("description_matches", optStrVal description_matches),
         ("creator_name", optStrVal creator_name),
         ("creator_id", optIntVal creator_id),
         ("is_active", strOrNone is_active_str),
         ("is_deleted", strOrNone is_deleted_str),
         ("category", optStrVal category),
         ("order", optStrVal order)] with
    | some q => .ok (q ++ [("limit", optIntVal limit)])
    | none => .error .indexError

/-- `true` exactly on a successful (non-raising) result. -/
def exceptOk {ε α} : Except ε α → Bool
  | .ok _ => true
  | .error _ => false

/-- `true` exactly when the result is a raised `UserError` (the
caller-error classification). -/
def isCallerError {α} : Except PyErr α → Bool
  | .error (.userError _ _) => true
  | _ => false

/-- C5 counterexample: the claim says every string outside the closed
enumerations fails validation, but the empty string is falsy in Python, so
`if category and category not in VALID_CATEGORY` skips the check and the
network call is issued with `search[category]=""`. -/
theorem get_pools_empty_category_passes :
    ("" ∉ validCategory) ∧
    exceptOk (getPools none .null none none none none none
      (some "") none none) = true := by
  constructor
  · decide
  · rfl

/-- C5 (amended): a category in {series, collection} together with an
order in {name, created_at, updated_at, post_count} passes validation and
the call is issued; every other *non-empty* string supplied as category or
order fails immediately with the caller-error classification (`UserError`)
before any network call (an `error` result is raised ahead of the
`_call_api` dispatch); the empty string is falsy and skips validation. -/
theorem get_pools_validation :
    (∀ nm id_ dm cn ci ia idl lim (c o : String),
      c ∈ validCategory → o ∈ validOrder →
      exceptOk (getPools nm id_ dm cn ci ia idl (some c) (some o) lim) = true) ∧
    (∀ nm id_ dm cn ci ia idl ord lim (c : String),
      c ≠ "" → c ∉ validCategory →
      isCallerError (getPools nm id_ dm cn ci ia idl (some c) ord lim) = true) ∧
    (∀ nm id_ dm cn ci ia idl cat lim (o : String),
      o ≠ "" → o ∉ validOrder →
      isCallerError (getPools nm id_ dm cn ci ia idl cat (some o) lim) = true) := by
  refine ⟨?_, ?_, ?_⟩
  · intro nm id_ dm cn ci ia idl lim c o hc ho
    have hc' : validCategory.contains c = true := List.elem_eq_true_of_mem hc
    have ho' : validOrder.contains o = true := List.elem_eq_true_of_mem ho
    simp only [getPools, Option.getD, pyTruthyOptStr, hc', ho', Bool.not_true,
      Bool.and_false, Bool.false_eq_true, if_false, convertSearchQuery]
    simp [exceptOk]
  · intro nm id_ dm cn ci ia idl ord lim c hc hmem
    have ht : pyTruthyOptStr (some c) = true := by
      simpa [pyTruthyOptStr] using hc
    simp [getPools, ht, hmem, isCallerError]
  · intro nm id_ dm cn ci ia idl cat lim o ho hmem
    have ht : pyTruthyOptStr (some o) = true := by
      simpa [pyTruthyOptStr] using ho
    cases hpt : pyTruthyOptStr cat <;>
      cases hcont : validCategory.contains (cat.getD "") <;>
        simp [getPools, hpt, hcont, ht, hmem, isCallerError] <;>
          by_cases hm2 : cat.getD "" ∈ validCategory <;> simp [hm2]

/-- Witness for C5 at concrete parameters. -/
theorem get_pools_validation_witness :
    exceptOk (getPools none .null none none none none none
      (some "series") (some "name") none) = true ∧
    isCallerError (getPools none .null none none none none none
      (some "seris") none none) = true ∧
    isCallerError (getPools none .null none none none none none
      none (some "size") none) = true := by
  refine ⟨?_, ?_, ?_⟩
  · exact get_pools_validation.1 none .null none none none none none none
      "series" "name" (by decide) (by decide)
  · exact get_pools_validation.2.1 none .null none none none none none none
      none "seris" (by decide) (by decide)
  · exact get_pools_validation.2.2 none .null none none none none none none
      none "size" (by decide) (by decide)

/-- C8: `_convert_search_query` strips one trailing underscore from each
key, wraps each key as `search[<key>]` keeping its value (explicitly
passed `None` values included), and the note/pool searches lowercase
booleans to the strings `"true"`/`"false"` before encoding
(`str(b).lower()`), producing exactly the queries dicts below. -/
theorem convert_search_query_spec :
    (∀ (kwargs : List (String × Json)), (∀ kv ∈ kwargs, kv.1 ≠ "") →
      convertSearchQuery kwargs =
        some (kwargs.map fun kv =>
          ("search[" ++ stripTrailingUnderscore kv.1 ++ "]", kv.2))) ∧
    stripTrailingUnderscore "id_" = "id" ∧
    stripTrailingUnderscore "body_matches" = "body_matches" ∧
    stripTrailingUnderscore "id__" = "id_" ∧
    (∀ bm pid ptm cn ci lim (b : Bool),
      getNotes bm pid ptm cn ci (some b) lim =
        some [("search[body_matches]", optStrVal bm),
              ("search[post_id]", optIntVal pid),
              ("search[post_tags_match]", optStrVal ptm),
              ("search[creator_name]", optStrVal cn),
              ("search[creator_id]", optStrVal ci),
              ("search[is_active]", .str (pyBoolStr b)),
              ("limit", optIntVal lim)]) ∧
    (∀ nm id_ dm cn ci lim (ia idl : Bool),
      getPools nm id_ dm cn ci (some ia) (some idl) none none lim =
        .ok [("search[name_matches]", optStrVal nm),
             ("search[id]", id_),
             ("search[description_matches]", optStrVal dm),
             ("search[creator_name]", optStrVal cn),
             ("search[creator_id]", optIntVal ci),
             ("search[is_active]", .str (pyBoolStr ia)),
             ("search[is_deleted]", .str (pyBoolStr idl)),
             ("search[category]", .null),
             ("search[order]", .null),
             ("limit", optIntVal lim)]) := by
  refine ⟨?_, by decide, by decide, by decide, ?_, ?_⟩
  · intro kwargs h
    induction kwargs with
    | nil => rfl
    | cons kv rest ih =>
      have hk : ¬kv.1 = "" := h kv (List.mem_cons_self kv rest)
      have ihr := ih (fun x hx => h x (List.mem_cons_of_mem kv hx))
      simp [convertSearchQuery, hk, ihr]
  · intro bm pid ptm cn ci lim b
    cases b <;> rfl
  · intro nm id_ dm cn ci lim ia idl
    cases ia <;> cases idl <;> rfl

/-- Witness for C8 at a concrete keyword mapping. -/
theorem convert_search_query_spec_witness :
    convertSearchQuery [("tags", Json.null), ("id_", Json.num 3)] =
      some [("search[tags]", Json.null), ("search[id]", Json.num 3)] :=
  (convert_search_query_spec.1 [("tags", Json.null), ("id_", Json.num 3)]
    (by decide)).trans (by decide)

/-- Python `str.split()` with no argument: split on whitespace runs,
discarding empty tokens. -/
def pySplit (s : String) : List String :=
  (s.split (fun c => c.isWhitespace)).filter (fun t => t != "")

/-- The dict branch of `Post._generate_difference` (Classes.py:137-145):
`for k in original.keys(): joined_original.extend(original[k]);
joined_new.extend(new[k])`.  Iterates the original's entries; `new[k]` on
a key absent from `new` raises `KeyError`. -/
def flattenPairs (o n : List (String × List String)) :
    Except PyErr (List String × List String) :=
  match o with
  | [] => .ok ([], [])
  | (k, vs) :: rest =>
    match n.find? (fun kv => kv.1 == k) with
    | none => .error .keyError
    | some kv =>
      match flattenPairs rest n with
      | .error e => .error e
      | .ok (fo, fn) => .ok (vs ++ fo, kv.2 ++ fn)

/-- Python `str.strip()`: drop leading and trailing whitespace.  Modelled
on the character list so that it evaluates by kernel reduction. -/
def pyStrip (s : String) : String :=
  String.mk (((s.data.dropWhile Char.isWhitespace).reverse.dropWhile
    Char.isWhitespace).reverse)

/-- The output assembly of `Post._generate_difference`
(Classes.py:150-160): added tokens space-joined, removed tokens each
prefixed with `-`, surrounding whitespace stripped. -/
def formatDiff (original new : List String) : String :=
  let deleted := diffList original new
  let added := diffList new original
  let output :=
    (if added.isEmpty then "" else String.intercalate " " added) ++
    (if deleted.isEmpty then "" else " -" ++ String.intercalate " -" deleted)
  pyStrip output

/-- The three representational shapes `Post._generate_difference`
accepts: a free-text string, a flat list of tags, or a mapping of
category name to tag list (a Python dict, modelled as an ordered
association list). -/
inductive FieldVal where
  | text (s : String)
  | flat (xs : List String)
  | grouped (m : List (String × List String))

/-- `Post._generate_difference` (Classes.py:121-160): same-shape inputs
are flattened (dicts by iterating the original's keys, strings by
whitespace tokenization) and formatted; mismatched shapes raise
`ValueError`. -/
def generateDifference (original new : FieldVal) : Except PyErr String :=
  match original, new with
  | .grouped o, .grouped n =>
    match flattenPairs o n with
    | .error e => .error e
    | .ok (fo, fn) => .ok (formatDiff fo fn)
  | .flat o, .flat n => .ok (formatDiff o n)
  | .text o, .text n => .ok (formatDiff (pySplit o) (pySplit n))
  | _, _ => .error .valueError

theorem diffList_eq_nil_of_subset {α} [DecidableEq α] (A B : List α)
    (h : ∀ a ∈ A, a ∈ B) : diffList A B = [] := by
  rw [diffList_eq_filter]
  exact List.filter_eq_nil_iff.mpr (fun a ha => by simpa using h a ha)

theorem formatDiff_self (L : List String) : formatDiff L L = "" := by
  unfold formatDiff
  rw [diffList_eq_nil_of_subset L L (fun a ha => ha)]
  rfl

theorem find_self_of_nodup (m : List (String × List String))
    (hnd : (m.map Prod.fst).Nodup) :
    ∀ kv ∈ m, m.find? (fun kv2 => kv2.1 == kv.1) = some kv := by
  induction m with
  | nil => intro kv h; cases h
  | cons hd rest ih =>
    rw [List.map_cons, List.nodup_cons] at hnd
    intro kv hkv
    rcases List.mem_cons.mp hkv with rfl | hmem
    · simp [List.find?]
    · have hne : (hd.1 == kv.1) = false := by
        rw [beq_eq_false_iff_ne]
        intro he
        exact hnd.1 (he ▸ List.mem_map_of_mem Prod.fst hmem)
      simp only [List.find?_cons, hne]
      exact ih hnd.2 kv hmem

theorem flattenPairs_ok (o n : List (String × List String))
    (h : ∀ kv ∈ o, (n.find? (fun kv2 => kv2.1 == kv.1)).isSome) :
    flattenPairs o n = .ok ((o.map Prod.snd).flatten,
      (o.map (fun kv =>
        ((n.find? (fun kv2 => kv2.1 == kv.1)).map Prod.snd).getD [])).flatten) := by
  induction o with
  | nil => rfl
  | cons hd rest ih =>
    have hh := h hd (List.mem_cons_self hd rest)
    rcases hf : n.find? (fun kv2 => kv2.1 == hd.1) with _ | kv2
    · rw [hf] at hh; cases hh
    · have ihr := ih (fun kv hkv => h kv (List.mem_cons_of_mem hd hkv))
      simp only [flattenPairs, hf, ihr, List.map_cons, List.flatten]
      rfl

/-- C4 counterexample: for the same-shape pair
`original = {"a": ["x"]}`, `updated = {}` the claim predicts the
formatted string `"-x"`; the code raises `KeyError` evaluating
`new["a"]`. -/
theorem generate_difference_missing_key_raises :
    generateDifference (.grouped [("a", ["x"])]) (.grouped []) =
      .error .keyError := rfl

/-- C4 (amended): the documented example yields `"w -x"` and no actual
change yields the empty string; mapping inputs are flattened by iterating
the *original's* keys (both flat lists follow the original's key order),
which requires every key of the original to be present in the updated
mapping — a key missing from the updated mapping raises `KeyError`
instead of producing a formatted string. -/
theorem generate_difference_behavior :
    generateDifference
        (.grouped [("a", ["x", "y"]), ("b", ["z"])])
        (.grouped [("a", ["y"]), ("b", ["z", "w"])]) = .ok "w -x" ∧
    (∀ xs : List String, generateDifference (.flat xs) (.flat xs) = .ok "") ∧
    (∀ s : String, generateDifference (.text s) (.text s) = .ok "") ∧
    (∀ m : List (String × List String), (m.map Prod.fst).Nodup →
      generateDifference (.grouped m) (.grouped m) = .ok "") ∧
    (∀ o n : List (String × List String),
      (∀ kv ∈ o, (n.find? (fun kv2 => kv2.1 == kv.1)).isSome) →
      generateDifference (.grouped o) (.grouped n) =
        .ok (formatDiff ((o.map Prod.snd).flatten)
          ((o.map (fun kv =>
            ((n.find? (fun kv2 => kv2.1 == kv.1)).map Prod.snd).getD [])).flatten))) := by
  refine ⟨rfl, ?_, ?_, ?_, ?_⟩
  · intro xs
    simp [generateDifference, formatDiff_self]
  · intro s
    simp [generateDifference, formatDiff_self]
  · intro m hnd
    have hfind := find_self_of_nodup m hnd
    have h : ∀ kv ∈ m, (m.find? (fun kv2 => kv2.1 == kv.1)).isSome := by
      intro kv hkv; rw [hfind kv hkv]; rfl
    have hflat := flattenPairs_ok m m h
    have heq : (m.map (fun kv =>
        ((m.find? (fun kv2 => kv2.1 == kv.1)).map Prod.snd).getD [])).flatten =
        (m.map Prod.snd).flatten := by
      congr 1
      apply List.map_congr_left
      intro kv hkv
      rw [hfind kv hkv]
      rfl
    rw [heq] at hflat
    simp [generateDifference, hflat, formatDiff_self]
  · intro o n h
    simp [generateDifference, flattenPairs_ok o n h]

/-- Witness for C4 at a concrete mapping. -/
theorem generate_difference_behavior_witness :
    generateDifference (.grouped [("a", ["x"])]) (.grouped [("a", ["x"])]) =
      .ok "" :=
  generate_difference_behavior.2.2.2.1 [("a", ["x"])] (by decide)

/-- The `Rating` enum (Enums.py:4-10), including its `NONE = None`
member. -/
inductive Rating where
  | none
  | safe
  | questionable
  | explicit
deriving DecidableEq

/-- Python `Rating(value)`: enum lookup by value.  `None` is a recognized
member value (`Rating.NONE`); anything outside the member values raises
`ValueError`. -/
def Rating.ofValue (v : Json) : Except PyErr Rating :=
  if v = .null then .ok .none
  else if v = .str "s" then .ok .safe
  else if v = .str "q" then .ok .questionable
  else if v = .str "e" then .ok .explicit
  else .error .valueError

/-- The `TagCategory` IntEnum (Classes.py:650-658). -/
inductive TagCategory where
  | general
  | artist
  | copyright
  | character
  | species
  | invalid
  | meta
  | lore
deriving DecidableEq

/-- Python `TagCategory(value)`: IntEnum lookup by value, using Python's
numeric equality, under which booleans coincide with 0 and 1
(`True == 1`, `False == 0`); anything else raises `ValueError`. -/
def TagCategory.ofValue (v : Json) : Except PyErr TagCategory :=
  if v = .num 0 ∨ v = .bool false then .ok .general
  else if v = .num 1 ∨ v = .bool true then .ok .artist
  else if v = .num 3 then .ok .copyright
  else if v = .num 4 then .ok .character
  else if v = .num 5 then .ok .species
  else if v = .num 6 then .ok .invalid
  else if v = .num 7 then .ok .meta
  else if v = .num 8 then .ok .lore
  else .error .valueError

/-- Python truthiness of the `json_data` argument (`None` and the empty
dict are falsy). -/
def pyTruthyObj : Option JsonObj → Bool
  | Option.none => false
  | some l => !l.isEmpty

/-- The typed view of a `Post` (Classes.py:52-88) plus the retained raw
snapshot `_original_data` (Classes.py:45).  When the payload is falsy the
Python object simply leaves the attributes unset; the unset state is
modelled as `Json.null` (and `Rating.none`, the enum's own empty
member). -/
structure PostObj where
  originalData : Option JsonObj
  id : Json
  createdAt : Json
  updatedAt : Json
  filePath : Json
  fileUrl : Json
  file : Json
  preview : Json
  sample : Json
  score : Json
  tags : Json
  lockedTags : Json
  changeSeq : Json
  flags : Json
  rating : Rating
  favCount : Json
  sources : Json
  pools : Json
  relationships : Json
  approverId : Json
  uploaderId : Json
  description : Json
  commentCount : Json
  isFavorited : Json

/-- `Post.__init__` (Classes.py:66-88) together with
`_BaseMixin.__init__` (Classes.py:42-49): a truthy payload is deep-copied
into `_original_data` and every typed field is read with `.get`; the
`rating` wire value goes through the `Rating` enum constructor, which can
raise. -/
def postInit (jsonData : Option JsonObj) : Except PyErr PostObj :=
  if pyTruthyObj jsonData then
    let o := jsonData.getD []
    match Rating.ofValue (jget o "rating") with
    | .error e => .error e
    | .ok r =>
      .ok { originalData := some o, id := jget o "id",
            createdAt := jget o "created_at", updatedAt := jget o "updated_at",
            filePath := .null, fileUrl := .null,
            file := jget o "file", preview := jget o "preview",
            sample := jget o "sample", score := jget o "score",
            tags := jget o "tags", lockedTags := jget o "locked_tags",
            changeSeq := jget o "change_seq", flags := jget o "flags",
            rating := r, favCount := jget o "fav_count",
            sources := jget o "sources", pools := jget o "pools",
            relationships := jget o "relationships",
            approverId := jget o "approver_id",
            uploaderId := jget o "uploader_id",
            description := jget o "description",
            commentCount := jget o "comment_count",
            isFavorited := jget o "is_favorited" }
  else
    .ok { originalData := Option.none, id := .null, createdAt := .null,
          updatedAt := .null, filePath := .null, fileUrl := .null,
          file := .null, preview := .null, sample := .null, score := .null,
          tags := .null, lockedTags := .null, changeSeq := .null,
          flags := .null, rating := Rating.none, favCount := .null,
          sources := .null, pools := .null, relationships := .null,
          approverId := .null, uploaderId := .null, description := .null,
          commentCount := .null, isFavorited := .null }

/-- The typed view of a `Tag` (Classes.py:661-670). -/
structure TagObj where
  originalData : Option JsonObj
  id : Json
  createdAt : Json
  updatedAt : Json
  name : Json
  postCount : Json
  relatedTags : Json
  relatedTagsUpdatedAt : Json
  category : TagCategory
  isLocked : Json

/-- `Tag.__init__` (Classes.py:662-670): the `category` wire value goes
through the `TagCategory` enum constructor, which can raise. -/
def tagInit (jsonData : Option JsonObj) : Except PyErr TagObj :=
  if pyTruthyObj jsonData then
    let o := jsonData.getD []
    match TagCategory.ofValue (jget o "category") with
    | .error e => .error e
    | .ok c =>
      .ok { originalData := some o, id := jget o "id",
            createdAt := jget o "created_at", updatedAt := jget o "updated_at",
            name := jget o "name", postCount := jget o "post_count",
            relatedTags := jget o "related_tags",
            relatedTagsUpdatedAt := jget o "related_tags_updated_at",
            category := c, isLocked := jget o "is_locked" }
  else
    .ok { originalData := Option.none, id := .null, createdAt := .null,
          updatedAt := .null, name := .null, postCount := .null,
          relatedTags := .null, relatedTagsUpdatedAt := .null,
          category := TagCategory.general, isLocked := .null }

/-- C6 counterexample: the claim says a wire rating value outside
{s, q, e} must fail construction, but `Rating` has the member
`NONE = None`, so a payload carrying `"rating": null` (and likewise a
payload missing the key, which reads back as `None`) constructs a Post
successfully. -/
theorem post_null_rating_constructs :
    Rating.ofValue .null = .ok Rating.none ∧
    exceptOk (postInit (some [("rating", Json.null)])) = true ∧
    exceptOk (postInit (some [("id", Json.num 1)])) = true :=
  ⟨rfl, rfl, rfl⟩

/-- C6 (amended): the enums are closed except that the rating value
`null`/missing maps to the `Rating.NONE` member and succeeds, and
Python's numeric equality admits the booleans `true`/`false` as the
tag-category codes 1/0; every other unrecognized wire value makes Post or
Tag construction fail with `ValueError`, never passing through. -/
theorem enum_construction_closed :
    (∀ v : Json, exceptOk (Rating.ofValue v) = true ↔
      v ∈ ([.null, .str "s", .str "q", .str "e"] : List Json)) ∧
    (∀ v : Json, exceptOk (TagCategory.ofValue v) = true ↔
      v ∈ ([.num 0, .num 1, .num 3, .num 4, .num 5, .num 6, .num 7, .num 8,
            .bool true, .bool false] : List Json)) ∧
    (∀ o : JsonObj, pyTruthyObj (some o) = true →
      (exceptOk (postInit (some o)) = true ↔
        exceptOk (Rating.ofValue (jget o "rating")) = true)) ∧
    (∀ o : JsonObj, pyTruthyObj (some o) = true →
      (exceptOk (tagInit (some o)) = true ↔
        exceptOk (TagCategory.ofValue (jget o "category")) = true)) := by
  refine ⟨?_, ?_, ?_, ?_⟩
  · intro v
    unfold Rating.ofValue
    split_ifs with h1 h2 h3 h4 <;> simp_all [exceptOk]
  · intro v
    unfold TagCategory.ofValue
    split_ifs with h1 h2 h3 h4 h5 h6 h7 h8
    · rcases h1 with h | h <;> subst h <;> decide
    · rcases h2 with h | h <;> subst h <;> decide
    · subst h3; decide
    · subst h4; decide
    · subst h5; decide
    · subst h6; decide
    · subst h7; decide
    · subst h8; decide
    · constructor
      · intro hc; simp [exceptOk] at hc
      · intro hmem
        simp only [List.mem_cons, List.not_mem_nil, or_false] at hmem
        rcases hmem with rfl | rfl | rfl | rfl | rfl | rfl | rfl | rfl | rfl | rfl
        · exact absurd (Or.inl rfl) h1
        · exact absurd (Or.inl rfl) h2
        · exact absurd rfl h3
        · exact absurd rfl h4
        · exact absurd rfl h5
        · exact absurd rfl h6
        · exact absurd rfl h7
        · exact absurd rfl h8
        · exact absurd (Or.inr rfl) h2
        · exact absurd (Or.inr rfl) h1
  · intro o ht
    unfold postInit
    rw [ht]
    rcases hr : Rating.ofValue (jget o "rating") with e | r <;> simp [hr, exceptOk]
  · intro o ht
    unfold tagInit
    rw [ht]
    rcases hc : TagCategory.ofValue (jget o "category") with e | c <;> simp [hc, exceptOk]

/-- Witness for C6 at concrete wire values and payloads. -/
theorem enum_construction_closed_witness :
    exceptOk (Rating.ofValue (.str "x")) = false ∧
    exceptOk (TagCategory.ofValue (.num 2)) = false ∧
    exceptOk (postInit (some [("rating", Json.str "zz")])) = false ∧
    exceptOk (tagInit (some [("category", Json.num 9)])) = false := by
  refine ⟨?_, ?_, ?_, ?_⟩
  · have h := (enum_construction_closed.1 (.str "x")).not
    simp only [Bool.not_eq_true] at h
    exact h.mpr (by decide)
  · have h := (enum_construction_closed.2.1 (.num 2)).not
    simp only [Bool.not_eq_true] at h
    exact h.mpr (by decide)
  · have h := (enum_construction_closed.2.2.1 [("rating", Json.str "zz")] rfl).not
    simp only [Bool.not_eq_true] at h
    exact h.mpr (by decide)
  · have h := (enum_construction_closed.2.2.2 [("category", Json.num 9)] rfl).not
    simp only [Bool.not_eq_true] at h
    exact h.mpr (by decide)

/-- The field mutations a caller performs on a Post's typed view before
calling `Post.update` (Classes.py:266-303 diffs exactly these fields of
`self` against `_original_data`).  Each mutation is an assignment to a
typed attribute; thanks to the `deepcopy` at construction
(Classes.py:45) no assignment can alias the snapshot. -/
inductive PostEdit where
  | setTags (v : Json)
  | setLockedTags (v : Json)
  | setSources (v : Json)
  | setDescription (v : Json)
  | setRating (r : Rating)
  | setFlags (v : Json)
  | setRelationships (v : Json)
  | setPools (v : Json)
  | setIsFavorited (v : Json)

/-- Apply one typed-view mutation. -/
def applyEdit (p : PostObj) (e : PostEdit) : PostObj :=
  match e with
  | .setTags v => { p with tags := v }
  | .setLockedTags v => { p with lockedTags := v }
  | .setSources v => { p with sources := v }
  | .setDescription v => { p with description := v }
  | .setRating r => { p with rating := r }
  | .setFlags v => { p with flags := v }
  | .setRelationships v => { p with relationships := v }
  | .setPools v => { p with pools := v }
  | .setIsFavorited v => { p with isFavorited := v }

/-- Apply a sequence of typed-view mutations in order. -/
def applyEdits : PostObj → List PostEdit → PostObj
  | p, [] => p
  | p, e :: rest => applyEdits (applyEdit p e) rest

theorem applyEdit_originalData (p : PostObj) (e : PostEdit) :
    (applyEdit p e).originalData = p.originalData := by
  cases e <;> rfl

theorem applyEdits_originalData (es : List PostEdit) :
    ∀ p : PostObj, (applyEdits p es).originalData = p.originalData := by
  induction es with
  | nil => intro p; rfl
  | cons e rest ih =>
    intro p
    rw [applyEdits, ih (applyEdit p e), applyEdit_originalData]

/-- C7: a Post constructed from a truthy server payload retains that
payload as `_original_data`, and any sequence of mutations of its typed
fields leaves the snapshot equal to the payload as it was at
construction. -/
theorem original_data_frame_preserved (o : JsonObj)
    (ht : pyTruthyObj (some o) = true) (p : PostObj)
    (hp : postInit (some o) = .ok p) :
    p.originalData = some o ∧
    ∀ es : List PostEdit, (applyEdits p es).originalData = some o := by
  have hod : p.originalData = some o := by
    unfold postInit at hp
    rw [ht] at hp
    simp only [if_true, Option.getD_some] at hp
    rcases hr : Rating.ofValue (jget o "rating") with e | r
    · rw [hr] at hp; simp at hp
    · rw [hr] at hp
      simp only [Except.ok.injEq] at hp
      subst hp
      rfl
  exact ⟨hod, fun es => (applyEdits_originalData es p).trans hod⟩

/-- A concrete payload and the Post it constructs, for the C7 witness. -/
def samplePostPayload : JsonObj := [("rating", Json.str "s")]

/-- The Post value `postInit` produces from `samplePostPayload`. -/
def samplePost : PostObj :=
  { originalData := some samplePostPayload, id := .null, createdAt := .null,
    updatedAt := .null, filePath := .null, fileUrl := .null, file := .null,
    preview := .null, sample := .null, score := .null, tags := .null,
    lockedTags := .null, changeSeq := .null, flags := .null,
    rating := Rating.safe, favCount := .null, sources := .null,
    pools := .null, relationships := .null, approverId := .null,
    uploaderId := .null, description := .null, commentCount := .null,
    isFavorited := .null }

/-- Witness for C7: mutating tags and description on a concretely
constructed Post leaves the snapshot untouched. -/
theorem original_data_frame_preserved_witness :
    (applyEdits samplePost
      [PostEdit.setTags (Json.str "x"),
       PostEdit.setDescription (Json.str "d")]).originalData =
      some samplePostPayload :=
  (original_data_frame_preserved samplePostPayload rfl samplePost rfl).2 _

/-- The typed view of a `Note` (Classes.py:327-352). -/
structure NoteObj where
  originalData : Option JsonObj
  id : Json
  createdAt : Json
  updatedAt : Json
  creatorId : Json
  x : Json
  y : Json
  width : Json
  height : Json
  version : Json
  isActive : Json
  postId : Json
  body : Json
  creatorName : Json

/-- `Note.__init__` (Classes.py:341-352): unlike the other entities, the
field reads `json_data.get(...)` are not guarded by `if json_data:`, so a
missing payload (`None`) raises `AttributeError` (`None` has no `.get`).
An empty dict is falsy for the base class (no `_original_data`) but its
`.get` calls succeed. -/
def noteInit : Option JsonObj → Except PyErr NoteObj
  | Option.none => .error .attributeError
  | some o =>
    .ok { originalData := if o.isEmpty then Option.none else some o,
          id := jget o "id", createdAt := jget o "created_at",
          updatedAt := jget o "updated_at", creatorId := jget o "creator_id",
          x := jget o "x", y := jget o "y", width := jget o "width",
          height := jget o "height", version := jget o "version",
          isActive := jget o "is_active", postId := jget o "post_id",
          body := jget o "body", creatorName := jget o "creator_name" }

/-- `Note.create` (Classes.py:368-386): constructs `cls(client=client)` —
that is, `Note` with its default `json_data=None` — and then assigns the
fields. -/
def noteCreate (post nx ny nwidth nheight : Int) (nbody : String) :
    Except PyErr NoteObj :=
  match noteInit Option.none with
  | .error e => .error e
  | .ok n =>
    .ok { n with postId := .num post, x := .num nx, y := .num ny,
                 width := .num nwidth, height := .num nheight,
                 body := .str nbody }

/-- The typed view of a `Pool` (Classes.py:467-492). -/
structure PoolObj where
  originalData : Option JsonObj
  id : Json
  createdAt : Json
  updatedAt : Json
  name : Json
  creatorId : Json
  description : Json
  isActive : Json
  category : Json
  isDeleted : Json
  postIds : Json
  creatorName : Json
  postCount : Json

/-- `Pool.__init__` (Classes.py:481-492): every field read is guarded by
`if json_data:`, so a missing payload constructs an empty Pool. -/
def poolInit (jsonData : Option JsonObj) : Except PyErr PoolObj :=
  if pyTruthyObj jsonData then
    let o := jsonData.getD []
    .ok { originalData := some o, id := jget o "id",
          createdAt := jget o "created_at", updatedAt := jget o "updated_at",
          name := jget o "name", creatorId := jget o "creator_id",
          description := jget o "description", isActive := jget o "is_active",
          category := jget o "category", isDeleted := jget o "is_deleted",
          postIds := jget o "post_ids", creatorName := jget o "creator_name",
          postCount := jget o "post_count" }
  else
    .ok { originalData := Option.none, id := .null, createdAt := .null,
          updatedAt := .null, name := .null, creatorId := .null,
          description := .null, isActive := .null, category := .null,
          isDeleted := .null, postIds := .null, creatorName := .null,
          postCount := .null }

/-- The typed view of a `Flag` (Classes.py:611-632). -/
structure FlagObj where
  originalData : Option JsonObj
  id : Json
  createdAt : Json
  updatedAt : Json
  postId : Json
  reason : Json
  isResolved : Json
  isDeletion : Json
  category : Json

/-- `Flag.__init__` (Classes.py:625-632): every field read is guarded by
`if json_data:`, so a missing payload constructs an empty Flag. -/
def flagInit (jsonData : Option JsonObj) : Except PyErr FlagObj :=
  if pyTruthyObj jsonData then
    let o := jsonData.getD []
    .ok { originalData := some o, id := jget o "id",
          createdAt := jget o "created_at", updatedAt := jget o "updated_at",
          postId := jget o "post_id", reason := jget o "reason",
          isResolved := jget o "is_resolved", isDeletion := jget o "is_deletion",
          category := jget o "category" }
  else
    .ok { originalData := Option.none, id := .null, createdAt := .null,
          updatedAt := .null, postId := .null, reason := .null,
          isResolved := .null, isDeletion := .null, category := .null }

/-- C9: constructing a Note with no JSON payload always fails with
`AttributeError` — and therefore so does the `Note.create` factory, which
constructs a Note before assigning its fields — whereas Post, Pool and
Flag accept a missing payload and produce an empty object. -/
theorem note_requires_payload :
    noteInit Option.none = .error .attributeError ∧
    noteCreate 1 10 20 30 40 "hello" = .error .attributeError ∧
    exceptOk (postInit Option.none) = true ∧
    exceptOk (poolInit Option.none) = true ∧
    exceptOk (flagInit Option.none) = true :=
  ⟨rfl, rfl, rfl, rfl, rfl⟩

/-- A post as handled by the pool resolver, abstracted to its id plus an
opaque payload: `Pool._sort_posts` and `Pool._register_linked`
(Classes.py:497-524) inspect only `.id`. -/
structure PoolPost where
  id : Nat
  payload : Json

/-- The navigation wrapper produced by `Pool._register_linked`
(Classes.py:511-524): the post together with its `previous` and `next`
back/forward references (the first element of a sequence gets no
`previous`, the last no `next`). -/
structure LinkedPost where
  post : PoolPost
  previous : Option PoolPost
  next : Option PoolPost

/-- `Pool._sort_posts` (Classes.py:497-509): reassemble the accumulated
posts by iterating `post_ids`, looking each id up in the accumulated
list (`next(p for p in arr if p.id == post_id)`; `none` models the
`StopIteration` raised when an id is missing). -/
def sortPosts (postIds : List Nat) (arr : List PoolPost) :
    Option (List PoolPost) :=
  postIds.mapM (fun pid => arr.find? (fun p => p.id == pid))

/-- `Pool._register_linked` (Classes.py:511-524): thread the
previous/next relation across the ordered sequence. -/
def registerLinked : Option PoolPost → List PoolPost → List LinkedPost
  | _, [] => []
  | prev, current :: rest =>
    ⟨current, prev, rest.head?⟩ :: registerLinked (some current) rest

/-- The page loop of `Pool.get_posts` (Classes.py:566-569):
`while len(result) < len(post_ids): result.extend(posts("pool:<id>",
page=current_page)); current_page += 1`.  `searchPosts` is the client's
post search indexed by page number; the loop is given explicit fuel, and
`none` means the fuel ran out with the loop still running. -/
def fetchLoop (searchPosts : Nat → List PoolPost) (target : Nat) :
    Nat → List PoolPost → Nat → Option (List PoolPost)
  | 0, _, _ => none
  | fuel + 1, result, currentPage =>
    if result.length < target then
      fetchLoop searchPosts target fuel
        (result ++ searchPosts currentPage) (currentPage + 1)
    else
      some result

/-- `Pool.get_posts` (Classes.py:549-573) for a synchronous client: run
the page loop, reorder to match `post_ids`, then register the
previous/next links. -/
def getPosts (postIds : List Nat) (searchPosts : Nat → List PoolPost)
    (fuel : Nat) : Option (List LinkedPost) :=
  match fetchLoop searchPosts postIds.length fuel [] 1 with
  | none => none
  | some result =>
    match sortPosts postIds result with
    | none => none
    | some sorted => some (registerLinked none sorted)

theorem find_eq_some_of_unique (R : List PoolPost) (pid : Nat) (p : PoolPost)
    (hp : p ∈ R) (hid : p.id = pid)
    (huniq : ∀ q ∈ R, q.id = pid → q = p) :
    R.find? (fun q => q.id == pid) = some p := by
  induction R with
  | nil => cases hp
  | cons a rest ih =>
    by_cases ha : (a.id == pid) = true
    · have hap : a = p := huniq a (List.mem_cons_self a rest) (beq_iff_eq.mp ha)
      subst hap
      simp [List.find?_cons, ha]
    · have hap : a ≠ p := fun he => ha (by rw [he, hid]; exact beq_self_eq_true pid)
      rcases List.mem_cons.mp hp with rfl | hmem
      · exact absurd rfl hap
      · simp only [List.find?_cons, ha]
        exact ih hmem (fun q hq hq2 => huniq q (List.mem_cons_of_mem a hq) hq2)

theorem fetchLoop_two_pages (pages : Nat → List PoolPost) (k : Nat)
    (h12 : (pages 1 ++ pages 2).length = 3) :
    fetchLoop pages 3 (k + 3) [] 1 = some (pages 1 ++ pages 2) := by
  have hstep1 : fetchLoop pages 3 (k + 3) [] 1 =
      fetchLoop pages 3 (k + 2) (pages 1) 2 := by
    simp [fetchLoop]
  by_cases h1 : (pages 1).length < 3
  · have hstep2 : fetchLoop pages 3 (k + 2) (pages 1) 2 =
        fetchLoop pages 3 (k + 1) (pages 1 ++ pages 2) 3 := by
      simp [fetchLoop, h1]
    have h3 : ¬(pages 1 ++ pages 2).length < 3 := by rw [h12]; omega
    rw [hstep1, hstep2, fetchLoop, if_neg h3]
  · have hp2 : pages 2 = [] := by
      rw [List.length_append] at h12
      exact List.eq_nil_of_length_eq_zero (by omega)
    rw [hstep1]
    simp [fetchLoop, h1, hp2]

/-- C1: a pool with `post_ids = [5,3,9]` whose client returns exactly the
three posts with those ids across the first two pages (in any order, any
split) resolves to the sequence `[post(5), post(3), post(9)]`, with
`post(3).previous = post(5)`, `post(3).next = post(9)`, and in general a
back-reference on every element but the first and a forward-reference on
every element but the last. -/
theorem pool_get_posts_resolves_order_and_links
    (p5 p3 p9 : PoolPost) (h5 : p5.id = 5) (h3 : p3.id = 3) (h9 : p9.id = 9)
    (pages : Nat → List PoolPost)
    (hperm : (pages 1 ++ pages 2).Perm [p5, p3, p9])
    (fuel : Nat) (hf : 3 ≤ fuel) :
    getPosts [5, 3, 9] pages fuel =
      some [⟨p5, none, some p3⟩, ⟨p3, some p5, some p9⟩,
            ⟨p9, some p3, none⟩] := by
  obtain ⟨k, rfl⟩ : ∃ k, fuel = k + 3 := ⟨fuel - 3, by omega⟩
  have hlen : (pages 1 ++ pages 2).length = 3 := by rw [hperm.length_eq]; rfl
  have hfetch := fetchLoop_two_pages pages k hlen
  have hmem : ∀ q ∈ pages 1 ++ pages 2, q = p5 ∨ q = p3 ∨ q = p9 := by
    intro q hq
    simpa using hperm.mem_iff.mp hq
  have hfind5 : (pages 1 ++ pages 2).find? (fun q => q.id == 5) = some p5 := by
    apply find_eq_some_of_unique _ 5 p5 (hperm.mem_iff.mpr (by simp)) h5
    intro q hq hqid
    rcases hmem q hq with rfl | rfl | rfl
    · rfl
    · rw [h3] at hqid; exact absurd hqid (by decide)
    · rw [h9] at hqid; exact absurd hqid (by decide)
  have hfind3 : (pages 1 ++ pages 2).find? (fun q => q.id == 3) = some p3 := by
    apply find_eq_some_of_unique _ 3 p3 (hperm.mem_iff.mpr (by simp)) h3
    intro q hq hqid
    rcases hmem q hq with rfl | rfl | rfl
    · rw [h5] at hqid; exact absurd hqid (by decide)
    · rfl
    · rw [h9] at hqid; exact absurd hqid (by decide)
  have hfind9 : (pages 1 ++ pages 2).find? (fun q => q.id == 9) = some p9 := by
    apply find_eq_some_of_unique _ 9 p9 (hperm.mem_iff.mpr (by simp)) h9
    intro q hq hqid
    rcases hmem q hq with rfl | rfl | rfl
    · rw [h5] at hqid; exact absurd hqid (by decide)
    · rw [h3] at hqid; exact absurd hqid (by decide)
    · rfl
  have hsort : sortPosts [5, 3, 9] (pages 1 ++ pages 2) =
      some [p5, p3, p9] := by
    rw [sortPosts]
    simp only [List.mapM_cons, List.mapM_nil]
    simp only [hfind5, hfind3, hfind9]
    rfl
  simp [getPosts, hfetch, hsort, registerLinked]

/-- Witness for C1 with the three posts delivered on page 1. -/
theorem pool_get_posts_resolves_order_and_links_witness :
    getPosts [5, 3, 9]
      (fun n => if n = 1
        then [(⟨5, .null⟩ : PoolPost), ⟨3, .null⟩, ⟨9, .null⟩] else []) 3 =
      some [⟨⟨5, .null⟩, none, some ⟨3, .null⟩⟩,
            ⟨⟨3, .null⟩, some ⟨5, .null⟩, some ⟨9, .null⟩⟩,
            ⟨⟨9, .null⟩, some ⟨3, .null⟩, none⟩] := by
  apply pool_get_posts_resolves_order_and_links
    ⟨5, .null⟩ ⟨3, .null⟩ ⟨9, .null⟩ rfl rfl rfl _ ?_ 3 (by omega)
  simp

/-- C10 counterexample: the claim says that as soon as any page comes
back empty while fewer than `len(post_ids)` posts are accumulated the
loop never exits; but a client whose page 1 is empty and whose page 2
carries all three posts terminates the loop normally. -/
theorem get_posts_empty_page_still_terminates :
    (fun n => if n = 2
      then [(⟨5, .null⟩ : PoolPost), ⟨3, .null⟩, ⟨9, .null⟩] else []) 1 = [] ∧
    fetchLoop
      (fun n => if n = 2
        then [(⟨5, .null⟩ : PoolPost), ⟨3, .null⟩, ⟨9, .null⟩] else [])
      3 3 [] 1 = some [⟨5, .null⟩, ⟨3, .null⟩, ⟨9, .null⟩] :=
  ⟨rfl, rfl⟩

/-- C10 (amended): if the client returns empty pages from the current
page onward (as a real paginated search does past its last page) while
fewer than `len(post_ids)` posts have been accumulated, the page loop of
`Pool.get_posts` never exits — no amount of fuel makes it return.  A
single empty page does not by itself cause divergence. -/
theorem get_posts_diverges_on_all_empty_pages
    (pages : Nat → List PoolPost) (target : Nat) (acc : List PoolPost)
    (hlt : acc.length < target) :
    ∀ fuel page, (∀ n, page ≤ n → pages n = []) →
      fetchLoop pages target fuel acc page = none := by
  intro fuel
  induction fuel with
  | zero => intro page _; rfl
  | succ fuel ih =>
    intro page h
    have h0 : pages page = [] := h page (Nat.le_refl page)
    show fetchLoop pages target (fuel + 1) acc page = none
    rw [fetchLoop, if_pos hlt, h0, List.append_nil]
    exact ih (page + 1) (fun n hn => h n (Nat.le_of_succ_le hn))

/-- Witness for C10 against the all-empty client. -/
theorem get_posts_diverges_on_all_empty_pages_witness :
    fetchLoop (fun _ => []) 3 5 [] 1 = none :=
  get_posts_diverges_on_all_empty_pages (fun _ => []) 3 [] (by decide) 5 1
    (fun n _ => rfl)
